import Mathlib

/-!
Verification of the chat backend in src/backend/main.py.

The file src/backend/main.py registers the POST /chat route three times, with
three successive handler definitions (lines 37 to 65, lines 121 to 159, and
lines 161 to 220).  The hosting framework (FastAPI over Starlette) matches
routes in registration order, so every request to POST /chat is served by the
FIRST registered handler; the later two definitions are dead code.  All three
are embedded below (the collaborators, an external generation service and a
persistence service, are opaque and are passed in as parameters), together
with a trace of the collaborator calls each run performs, so that frame
properties (what is and is not invoked) can be stated.
-/

namespace TextbookBackend

/-- Modelled from the spec: the request schema `ChatRequest` (called
`ChatMessage` in the source import from models.schemas, a file not present
under src/) has a required free-text `message` and an optional selected-text
snippet `selected_text`. -/
structure ChatMessage where
  message : String
  selected_text : Option String
deriving Repr, DecidableEq

/-- One source-attribution entry, as built by the dict literals in main.py
(keys "text" and "source"). -/
structure SourceEntry where
  text : String
  source : String
deriving Repr, DecidableEq

/-- Modelled from the spec: the response schema `ChatResponse` (imported from
models.schemas, not present under src/) carries the generated text and an
ordered list of source attributions, matching the constructor calls
`ChatResponse(response=..., sources=...)` in main.py. -/
structure ChatResponse where
  response : String
  sources : List SourceEntry
deriving Repr, DecidableEq

/-- A FastAPI HTTPException as raised by main.py: a status code and a detail
string. -/
structure HTTPException where
  status_code : Nat
  detail : String
deriving Repr, DecidableEq

/-- Observable collaborator calls a handler run can perform.  The chat
handlers only ever call the generation service and the persistence service;
the vector-database constructor corresponds to `qdrant_service`, whose sole
use in main.py is in the startup hook. -/
inductive Event where
  | genCall (message context : String)
  | saveCall (user_message bot_response : String) (selected_text : Option String)
  | qdrantCall (op : String)
deriving Repr, DecidableEq

/-- Whether an event is a vector-database operation. -/
def Event.isQdrant : Event → Bool
  | .qdrantCall _ => true
  | _ => false

/-- Python truthiness of the optional field `message.selected_text`: the test
`if message.selected_text:` is false for None and for the empty string, true
otherwise. -/
def truthy : Option String → Bool
  | none => false
  | some s => s != ""

/-- The fixed system prompt of the general-knowledge branch, byte for byte as
the triple-quoted literal in main.py (including the trailing space after
"textbook." and the 12-space indentation of the continuation lines). -/
def general_context : String :=
  "You are a helpful assistant for a Physical AI & Humanoid Robotics textbook. \n            Answer questions about ROS 2, Gazebo, NVIDIA Isaac, humanoid robots, and robotics in general.\n            Be clear, technical but accessible, and provide practical examples when possible."

/-- The external generation collaborator
`gemini_service.generate_response(message, context)`: opaque, returns
generated text or fails with an error message. -/
abbrev GenService := String → String → Except String String

/-- The external persistence collaborator
`db_service.save_chat(user_message, bot_response, selected_text)`: opaque,
returns nothing or fails with an error message. -/
abbrev SaveService := String → String → Option String → Except String Unit

/-- First registered POST /chat handler, main.py lines 37 to 65.  One
try/except around the whole body: any exception, from generation or from
persistence, becomes HTTPException(500, str(e)).  The general-knowledge
attribution is labelled "Gemini". -/
def chat_v1 (gen : GenService) (save : SaveService) (m : ChatMessage) :
    Except HTTPException ChatResponse × List Event :=
  let cs :=
    if truthy m.selected_text then
      let s := m.selected_text.getD ""
      (s, [SourceEntry.mk (s.take 200 ++ "...") "Selected Text"])
    else
      (general_context, [SourceEntry.mk "AI Knowledge Base" "Gemini"])
  match gen m.message cs.1 with
  | .error e => (.error ⟨500, e⟩, [.genCall m.message cs.1])
  | .ok response =>
    match save m.message response m.selected_text with
    | .error e =>
        (.error ⟨500, e⟩,
         [.genCall m.message cs.1, .saveCall m.message response m.selected_text])
    | .ok _ =>
        (.ok ⟨response, cs.2⟩,
         [.genCall m.message cs.1, .saveCall m.message response m.selected_text])

/-- Second registered POST /chat handler, main.py lines 121 to 159: identical
control flow and literals to the first, plus print diagnostics (no observable
difference in the embedding). -/
def chat_v2 (gen : GenService) (save : SaveService) (m : ChatMessage) :
    Except HTTPException ChatResponse × List Event :=
  let cs :=
    if truthy m.selected_text then
      let s := m.selected_text.getD ""
      (s, [SourceEntry.mk (s.take 200 ++ "...") "Selected Text"])
    else
      (general_context, [SourceEntry.mk "AI Knowledge Base" "Gemini"])
  match gen m.message cs.1 with
  | .error e => (.error ⟨500, e⟩, [.genCall m.message cs.1])
  | .ok response =>
    match save m.message response m.selected_text with
    | .error e =>
        (.error ⟨500, e⟩,
         [.genCall m.message cs.1, .saveCall m.message response m.selected_text])
    | .ok _ =>
        (.ok ⟨response, cs.2⟩,
         [.genCall m.message cs.1, .saveCall m.message response m.selected_text])

/-- Third registered POST /chat handler, main.py lines 161 to 220: inner
try/except around generation wraps the error as
HTTPException(500, "AI service error: " + str(e)) and re-raises it through
the outer handler unchanged; a separate inner try/except around persistence
catches and discards any save error (source comment: do not fail the request
if the DB save fails).  The attribution label here is "AI", not "Gemini".
This handler is dead code at runtime (third registration of the route). -/
def chat_v3 (gen : GenService) (save : SaveService) (m : ChatMessage) :
    Except HTTPException ChatResponse × List Event :=
  let cs :=
    if truthy m.selected_text then
      let s := m.selected_text.getD ""
      (s, [SourceEntry.mk (s.take 200 ++ "...") "Selected Text"])
    else
      (general_context, [SourceEntry.mk "AI Knowledge Base" "AI"])
  match gen m.message cs.1 with
  | .error e => (.error ⟨500, "AI service error: " ++ e⟩, [.genCall m.message cs.1])
  | .ok response =>
    match save m.message response m.selected_text with
    | .error _db_error =>
        (.ok ⟨response, cs.2⟩,
         [.genCall m.message cs.1, .saveCall m.message response m.selected_text])
    | .ok _ =>
        (.ok ⟨response, cs.2⟩,
         [.genCall m.message cs.1, .saveCall m.message response m.selected_text])

/-- The handler that actually serves POST /chat: routes are matched in
registration order, so the first registered handler receives every request. -/
def chat : GenService → SaveService → ChatMessage →
    Except HTTPException ChatResponse × List Event :=
  chat_v1

/-- The derived per-request context choice of the spec data model. -/
inductive ContextKind where
  | selectedTextKind
  | generalKnowledge
deriving Repr, DecidableEq

/-- Modelled from the spec: the ContextChoice entity (kind plus the context
text), computed exactly as the branch at the top of each chat handler from
the optional selected text alone. -/
structure ContextChoice where
  kind : ContextKind
  text : String
deriving Repr, DecidableEq

/-- The context-selection branch shared by all three handlers, as a function
of the only datum it reads, `message.selected_text`. -/
def context_choice (sel : Option String) : ContextChoice :=
  if truthy sel then ⟨.selectedTextKind, sel.getD ""⟩
  else ⟨.generalKnowledge, general_context⟩

/-- The startup hook (main.py lines 25 to 30): the only place in main.py
where the vector-database collaborator is invoked. -/
def startup_event : List Event :=
  [.qdrantCall "initialize_collection vector_size=768"]

/-- Concrete generation service that always succeeds with a fixed text. -/
def genOK : GenService := fun _ _ => .ok "All good"

/-- Concrete generation service that always fails. -/
def genFail : GenService := fun _ _ => .error "gen down"

/-- Concrete persistence service that always succeeds. -/
def saveOK : SaveService := fun _ _ _ => .ok ()

/-- Concrete persistence service that always fails. -/
def saveFail : SaveService := fun _ _ _ => .error "db down"

/-- The attribution list each branch of the live handler builds, as a
function of the optional selected text. -/
def sourcesOf (sel : Option String) : List SourceEntry :=
  if truthy sel then
    [SourceEntry.mk ((sel.getD "").take 200 ++ "...") "Selected Text"]
  else [SourceEntry.mk "AI Knowledge Base" "Gemini"]

/-- Helper: a present non-empty selection is truthy. -/
theorem truthy_some (s : String) (hne : s ≠ "") : truthy (some s) = true := by
  simp [truthy, hne]

/-- Helper: the context chosen for a present non-empty selection. -/
theorem context_choice_some (s : String) (hne : s ≠ "") :
    context_choice (some s) = ⟨.selectedTextKind, s⟩ := by
  simp [context_choice, truthy_some s hne]

/-- Helper: the attribution built for a present non-empty selection. -/
theorem sourcesOf_some (s : String) (hne : s ≠ "") :
    sourcesOf (some s) = [⟨s.take 200 ++ "...", "Selected Text"⟩] := by
  simp [sourcesOf, truthy_some s hne]

/-- Helper: a run of the live handler whose generation call fails. -/
theorem chat_v1_gen_error (gen : GenService) (save : SaveService)
    (m : ChatMessage) (e : String)
    (h : gen m.message (context_choice m.selected_text).text = .error e) :
    chat_v1 gen save m =
      (.error ⟨500, e⟩,
       [.genCall m.message (context_choice m.selected_text).text]) := by
  cases ht : truthy m.selected_text <;> simp_all [chat_v1, context_choice]

/-- Helper: a run of the live handler whose generation call succeeds but
whose persistence call fails. -/
theorem chat_v1_save_error (gen : GenService) (save : SaveService)
    (m : ChatMessage) (r e : String)
    (hg : gen m.message (context_choice m.selected_text).text = .ok r)
    (hs : save m.message r m.selected_text = .error e) :
    chat_v1 gen save m =
      (.error ⟨500, e⟩,
       [.genCall m.message (context_choice m.selected_text).text,
        .saveCall m.message r m.selected_text]) := by
  cases ht : truthy m.selected_text <;> simp_all [chat_v1, context_choice]

/-- Helper: a run of the live handler whose two collaborator calls both
succeed. -/
theorem chat_v1_ok (gen : GenService) (save : SaveService)
    (m : ChatMessage) (r : String) (u : Unit)
    (hg : gen m.message (context_choice m.selected_text).text = .ok r)
    (hs : save m.message r m.selected_text = .ok u) :
    chat_v1 gen save m =
      (.ok ⟨r, sourcesOf m.selected_text⟩,
       [.genCall m.message (context_choice m.selected_text).text,
        .saveCall m.message r m.selected_text]) := by
  cases ht : truthy m.selected_text <;> simp_all [chat_v1, context_choice, sourcesOf]

/-- C1.  The claim states that a persistence failure after a successful
generation is caught and suppressed and the successful ChatResponse is
returned unchanged.  The live handler (the first registered POST /chat
route) wraps generation AND persistence in one try/except, so a save_chat
failure is converted to HTTPException 500 and the successful response is
lost; only the dead third handler suppresses the save error as the claim
(and the source comment inside that handler) describe. -/
theorem chat_db_failure_yields_500 :
    (chat genOK saveFail ⟨"hi", none⟩).1 =
      .error ⟨500, "db down"⟩ ∧
    (chat_v3 genOK saveFail ⟨"hi", none⟩).1 =
      .ok ⟨"All good", [⟨"AI Knowledge Base", "AI"⟩]⟩ :=
  ⟨rfl, rfl⟩

/-- C2.  If the generation collaborator fails, the handler performs exactly
one generation call and nothing else (no persistence attempt, no retry), and
the result is a 500 error whose detail is exactly the original failure
message. -/
theorem chat_gen_failure_no_persistence (gen : GenService) (save : SaveService)
    (m : ChatMessage) (e : String)
    (h : gen m.message (context_choice m.selected_text).text = .error e) :
    (chat gen save m).1 = .error ⟨500, e⟩ ∧
    (chat gen save m).2 =
      [.genCall m.message (context_choice m.selected_text).text] := by
  show (chat_v1 gen save m).1 = _ ∧ (chat_v1 gen save m).2 = _
  rw [chat_v1_gen_error gen save m e h]
  exact ⟨rfl, rfl⟩

/-- Witness for C2 at a concrete request and a concrete failing generator. -/
theorem chat_gen_failure_no_persistence_witness :
    (chat genFail saveOK ⟨"q", none⟩).1 = .error ⟨500, "gen down"⟩ ∧
    (chat genFail saveOK ⟨"q", none⟩).2 = [.genCall "q" general_context] :=
  chat_gen_failure_no_persistence genFail saveOK ⟨"q", none⟩ "gen down" rfl

/-- C3.  For a request whose selected text is absent or empty, the context
passed to the generation collaborator is the fixed system prompt (whatever
the message is), and when generation and persistence succeed the handler
returns the generated text verbatim together with the single attribution
entry text "AI Knowledge Base", source "Gemini". -/
theorem chat_general_branch (gen : GenService) (save : SaveService)
    (m : ChatMessage) (h : truthy m.selected_text = false) :
    (∃ rest, (chat gen save m).2 =
        .genCall m.message general_context :: rest) ∧
    ∀ r, gen m.message general_context = .ok r →
      save m.message r m.selected_text = .ok () →
      (chat gen save m).1 =
        .ok ⟨r, [⟨"AI Knowledge Base", "Gemini"⟩]⟩ := by
  have hc : (context_choice m.selected_text).text = general_context := by
    simp [context_choice, h]
  constructor
  · show ∃ rest, (chat_v1 gen save m).2 = _
    cases hg : gen m.message general_context with
    | error e =>
      rw [chat_v1_gen_error gen save m e (by rw [hc]; exact hg), hc]
      exact ⟨[], rfl⟩
    | ok r =>
      cases hs : save m.message r m.selected_text with
      | error e =>
        rw [chat_v1_save_error gen save m r e (by rw [hc]; exact hg) hs, hc]
        exact ⟨[.saveCall m.message r m.selected_text], rfl⟩
      | ok u =>
        rw [chat_v1_ok gen save m r u (by rw [hc]; exact hg) hs, hc]
        exact ⟨[.saveCall m.message r m.selected_text], rfl⟩
  · intro r hg hs
    show (chat_v1 gen save m).1 = _
    rw [chat_v1_ok gen save m r () (by rw [hc]; exact hg) hs]
    simp [sourcesOf, h]

/-- Witness for C3 at the concrete scenario request of the spec. -/
theorem chat_general_branch_witness :
    (chat genOK saveOK ⟨"What is ROS 2?", none⟩).1 =
      .ok ⟨"All good", [⟨"AI Knowledge Base", "Gemini"⟩]⟩ :=
  (chat_general_branch genOK saveOK ⟨"What is ROS 2?", none⟩ rfl).2
    "All good" rfl rfl

/-- C9.  A run of the live chat handler never performs a vector-database
operation: its trace contains only generation and persistence calls,
whatever the request and whatever the collaborators do. -/
theorem chat_never_invokes_qdrant (gen : GenService) (save : SaveService)
    (m : ChatMessage) :
    ((chat gen save m).2.all fun ev => ! ev.isQdrant) = true := by
  show ((chat_v1 gen save m).2.all fun ev => ! ev.isQdrant) = true
  cases hg : gen m.message (context_choice m.selected_text).text with
  | error e => rw [chat_v1_gen_error gen save m e hg]; rfl
  | ok r =>
    cases hs : save m.message r m.selected_text with
    | error e => rw [chat_v1_save_error gen save m r e hg hs]; rfl
    | ok u => rw [chat_v1_ok gen save m r u hg hs]; rfl

/-- Helper: every run of the live handler starts with exactly one generation
call, whose context is the one computed from the selected text. -/
theorem chat_v1_trace_head (gen : GenService) (save : SaveService)
    (m : ChatMessage) :
    ∃ rest, (chat_v1 gen save m).2 =
      .genCall m.message (context_choice m.selected_text).text :: rest := by
  cases hg : gen m.message (context_choice m.selected_text).text with
  | error e => rw [chat_v1_gen_error gen save m e hg]; exact ⟨[], rfl⟩
  | ok r =>
    cases hs : save m.message r m.selected_text with
    | error e =>
      rw [chat_v1_save_error gen save m r e hg hs]
      exact ⟨[.saveCall m.message r m.selected_text], rfl⟩
    | ok u =>
      rw [chat_v1_ok gen save m r u hg hs]
      exact ⟨[.saveCall m.message r m.selected_text], rfl⟩

/-- C4.  For a request whose selected text is present and non-empty, the
context passed to the generation collaborator is the selected text itself,
and when both collaborators succeed the handler returns one attribution
entry whose excerpt is the first (up to) 200 characters of the selection
followed by "..." and whose label is "Selected Text". -/
theorem chat_selected_branch (gen : GenService) (save : SaveService)
    (m : ChatMessage) (s : String)
    (hsel : m.selected_text = some s) (hne : s ≠ "") :
    (∃ rest, (chat gen save m).2 = .genCall m.message s :: rest) ∧
    ∀ r, gen m.message s = .ok r →
      save m.message r m.selected_text = .ok () →
      (chat gen save m).1 =
        .ok ⟨r, [⟨s.take 200 ++ "...", "Selected Text"⟩]⟩ := by
  have hc : (context_choice m.selected_text).text = s := by
    rw [hsel, context_choice_some s hne]
  constructor
  · have := chat_v1_trace_head gen save m
    rw [hc] at this
    exact this
  · intro r hg hs
    show (chat_v1 gen save m).1 = _
    rw [chat_v1_ok gen save m r () (by rw [hc]; exact hg) hs, hsel,
      sourcesOf_some s hne]

/-- Witness for C4 at a concrete short selection. -/
theorem chat_selected_branch_witness :
    (chat genOK saveOK ⟨"Explain", some "hello world"⟩).1 =
      .ok ⟨"All good", [⟨"hello world".take 200 ++ "...", "Selected Text"⟩]⟩ :=
  (chat_selected_branch genOK saveOK ⟨"Explain", some "hello world"⟩
    "hello world" rfl (by decide)).2 "All good" rfl rfl

/-- C5.  Exactly one context choice is computed per request, and it is a
function of the optional selected text alone: two requests with different
messages but the same selected text lead to generation calls with the same
context, and the selection branch is taken exactly when the selected text is
present and non-empty. -/
theorem chat_context_determined_by_selection (gen : GenService)
    (save : SaveService) (a b : String) (sel : Option String) :
    (∃ rest, (chat gen save ⟨a, sel⟩).2 =
        .genCall a (context_choice sel).text :: rest) ∧
    (∃ rest, (chat gen save ⟨b, sel⟩).2 =
        .genCall b (context_choice sel).text :: rest) ∧
    ((context_choice sel).kind = .selectedTextKind ↔ truthy sel = true) := by
  refine ⟨chat_v1_trace_head gen save ⟨a, sel⟩,
    chat_v1_trace_head gen save ⟨b, sel⟩, ?_⟩
  cases ht : truthy sel <;> simp [context_choice, ht]

/-- The 210-character selection of the spec scenario. -/
def sel210 : String := String.mk (List.replicate 210 'x')

/-- C6.  On a request carrying a 210-character selection, the attribution
excerpt has length exactly 203 (200 kept characters plus the three of
"..."). -/
theorem chat_excerpt_length_210 :
    ∃ resp, (chat genOK saveOK ⟨"Explain this", some sel210⟩).1 = .ok resp ∧
      resp.sources.map (fun src => src.text.length) = [203] := by
  have hne : sel210 ≠ "" := by decide
  refine ⟨⟨"All good", [⟨sel210.take 200 ++ "...", "Selected Text"⟩]⟩, ?_, ?_⟩
  · show (chat_v1 genOK saveOK ⟨"Explain this", some sel210⟩).1 = _
    rw [chat_v1_ok genOK saveOK ⟨"Explain this", some sel210⟩ "All good" ()
      rfl rfl]
    simp only [sourcesOf_some sel210 hne]
  · rw [List.map_cons, List.map_nil]
    rw [String.length_append, String.take_eq, String.length_mk,
      List.length_take]
    have h1 : sel210.data.length = 210 := by
      rw [show sel210.data = List.replicate 210 'x' from rfl,
        List.length_replicate]
    have h2 : ("..." : String).length = 3 := rfl
    rw [h1, h2]
    norm_num

/-- C7.  A non-empty selection shorter than 200 characters is handled
without error: the excerpt is the whole selection followed by "..." (the
truncation keeps min(length, 200) characters), and with succeeding
collaborators the handler returns normally. -/
theorem chat_short_selection_total (gen : GenService) (save : SaveService)
    (m : ChatMessage) (s : String)
    (hsel : m.selected_text = some s) (hne : s ≠ "")
    (hlen : s.length < 200) (r : String)
    (hg : gen m.message s = .ok r)
    (hs : save m.message r m.selected_text = .ok ()) :
    (chat gen save m).1 = .ok ⟨r, [⟨s ++ "...", "Selected Text"⟩]⟩ := by
  have hc : (context_choice m.selected_text).text = s := by
    rw [hsel, context_choice_some s hne]
  have htake : s.take 200 = s := by
    rw [String.take_eq]
    have hdl : s.data.length ≤ 200 := by
      have h1 : s.length = s.data.length := rfl
      omega
    rw [List.take_of_length_le hdl]
  show (chat_v1 gen save m).1 = _
  rw [chat_v1_ok gen save m r () (by rw [hc]; exact hg) hs, hsel,
    sourcesOf_some s hne, htake]

/-- Witness for C7 at a concrete 5-character selection. -/
theorem chat_short_selection_total_witness :
    (chat genOK saveOK ⟨"Explain", some "short"⟩).1 =
      .ok ⟨"All good", [⟨"short" ++ "...", "Selected Text"⟩]⟩ :=
  chat_short_selection_total genOK saveOK ⟨"Explain", some "short"⟩ "short"
    rfl (by decide) (by decide) "All good" rfl rfl

/-- C8.  Every successful response carries exactly one attribution entry, so
the sources list is never empty. -/
theorem chat_sources_singleton (gen : GenService) (save : SaveService)
    (m : ChatMessage) (resp : ChatResponse)
    (h : (chat gen save m).1 = .ok resp) : resp.sources.length = 1 := by
  have h' : (chat_v1 gen save m).1 = .ok resp := h
  cases hg : gen m.message (context_choice m.selected_text).text with
  | error e => rw [chat_v1_gen_error gen save m e hg] at h'; simp at h'
  | ok r =>
    cases hs : save m.message r m.selected_text with
    | error e => rw [chat_v1_save_error gen save m r e hg hs] at h'; simp at h'
    | ok u =>
      rw [chat_v1_ok gen save m r u hg hs] at h'
      injection h' with h2
      subst h2
      cases ht : truthy m.selected_text <;> simp [sourcesOf, ht]

/-- Witness for C8 at a concrete successful run. -/
theorem chat_sources_singleton_witness :
    (ChatResponse.mk "All good"
      [⟨"AI Knowledge Base", "Gemini"⟩]).sources.length = 1 :=
  chat_sources_singleton genOK saveOK ⟨"m", none⟩
    ⟨"All good", [⟨"AI Knowledge Base", "Gemini"⟩]⟩ rfl

/-- C10.  The ellipsis is appended unconditionally: for every present and
non-empty selection, the excerpt is the first min(length, 200) characters of
the selection followed by "..." and its length is min(length, 200) + 3. -/
theorem chat_excerpt_unconditional_ellipsis (gen : GenService)
    (save : SaveService) (m : ChatMessage) (s : String)
    (hsel : m.selected_text = some s) (hne : s ≠ "") (r : String)
    (hg : gen m.message s = .ok r)
    (hs : save m.message r m.selected_text = .ok ()) :
    (chat gen save m).1 =
      .ok ⟨r, [⟨s.take 200 ++ "...", "Selected Text"⟩]⟩ ∧
    (s.take 200 ++ "...").length = min s.length 200 + 3 := by
  have hc : (context_choice m.selected_text).text = s := by
    rw [hsel, context_choice_some s hne]
  constructor
  · show (chat_v1 gen save m).1 = _
    rw [chat_v1_ok gen save m r () (by rw [hc]; exact hg) hs, hsel,
      sourcesOf_some s hne]
  · rw [String.length_append, String.take_eq, String.length_mk,
      List.length_take]
    have h1 : s.length = s.data.length := rfl
    have h2 : ("..." : String).length = 3 := rfl
    omega

/-- Witness for C10 at a concrete 2-character selection. -/
theorem chat_excerpt_unconditional_ellipsis_witness :
    (chat genOK saveOK ⟨"E", some "ab"⟩).1 =
      .ok ⟨"All good", [⟨"ab".take 200 ++ "...", "Selected Text"⟩]⟩ ∧
    ("ab".take 200 ++ "...").length = min "ab".length 200 + 3 :=
  chat_excerpt_unconditional_ellipsis genOK saveOK ⟨"E", some "ab"⟩ "ab"
    rfl (by decide) "All good" rfl rfl

end TextbookBackend
